import Mathlib

/-
Verification of the quantity-validation and table utilities of the
BeaverDet detonation-tube design library (src/beaverdet/tools.py),
together with spec-modelled versions of the reference-table loader and
pipe-dimension lookup that the test suite exercises.

The embedding follows the Python source line by line:

* a pint quantity is modelled by its dimensionality string (the value of
  `quantity.dimensionality.__str__()`), its magnitude, and the magnitude
  it would have after `to_base_units()`;
* a magnitude is either a numeric value (so `float(m)` succeeds), a
  string that `float` rejects with a `ValueError`, or some other object
  (for example a complex number or a multi-element numpy array) that
  `float` rejects with a `TypeError`;
* the result of a call is a normal return, a raised `ValueError` with
  its message, or an uncaught `TypeError` escaping from `float`.
-/

namespace BeaverDet

/-- Magnitude stored inside a pint quantity, classified by how the
Python builtin `float` treats it: `num x` is a numeric value that
coerces to a float, `badStr s` is a string that `float` rejects with a
`ValueError`, and `badObj` is any other non-coercible object (for
example a complex number or a multi-element numpy array), which `float`
rejects with a `TypeError`. -/
inductive Magnitude where
  | num (x : ℚ)
  | badStr (s : String)
  | badObj
deriving DecidableEq

/-- A pint quantity as seen by `check_pint_quantity`: its dimensionality
string `dims` (pint prints, for example, a length dimensionality as
"[length]"), its raw magnitude `mag`, and `baseMag`, the magnitude of
`quantity.to_base_units()` (only consulted when `mag` is numeric, since
the code coerces the raw magnitude to float first). -/
structure PintQuantity where
  dims : String
  mag : Magnitude
  baseMag : ℚ
deriving DecidableEq

/-- An argument passed to `check_pint_quantity`: either a pint quantity,
or any other Python object (a bare number, a list, ...) that has no
`dimensionality` attribute, so that the attribute access raises an
`AttributeError` caught by the code. -/
inductive PyObject where
  | pintQuantity (q : PintQuantity)
  | nonPint
deriving DecidableEq

/-- Outcome of a call: a normal return value, a raised `ValueError`
carrying its message, or an uncaught `TypeError` escaping from the
`float(quantity.magnitude)` coercion (the code only catches
`ValueError` there). -/
inductive PyResult where
  | ok (b : Bool)
  | valueError (msg : String)
  | typeError
deriving DecidableEq

/-- The `units` dictionary built at the top of `check_pint_quantity`:
the six supported dimension names mapped to the dimensionality strings
pint produces for meter, meter squared, meter cubed, degC, psi and
meter per second. Returns `none` exactly when the requested name is not
a key of the dictionary. -/
def units_map (dimension_type : String) : Option String :=
  if dimension_type = "length" then some "[length]"
  else if dimension_type = "area" then some "[length] ** 2"
  else if dimension_type = "volume" then some "[length] ** 3"
  else if dimension_type = "temperature" then some "[temperature]"
  else if dimension_type = "pressure" then some "[mass] / [length] / [time] ** 2"
  else if dimension_type = "velocity" then some "[length] / [time]"
  else none

/-- Python `s.strip(A)` on a character class: drop the characters of
the class from both ends of the list. -/
def stripClass (p : Char → Bool) (l : List Char) : List Char :=
  ((l.dropWhile p).reverse.dropWhile p).reverse

/-- Python `s.strip('[]')` as used on dimensionality strings: remove
every leading and trailing square bracket (inner brackets stay). -/
def stripBrackets (s : String) : String :=
  String.mk (stripClass (fun c => c = '[' || c = ']') s.data)

/-- Message of the `ValueError` raised for an unsupported dimension
type. -/
def unsupportedMsg (dimension_type : String) : String :=
  dimension_type ++ " not a supported dimension type"

/-- Message of the `ValueError` raised for an input with no
`dimensionality` attribute. -/
def nonPintMsg : String := "Non-pint quantity"

/-- Message of the `ValueError` raised when `float(quantity.magnitude)`
raises a `ValueError`. -/
def nonNumericMsg : String := "Non-numeric pint quantity"

/-- Message of the `ValueError` raised for a negative base-unit
magnitude when `ensure_positive` is set. -/
def negativeMsg : String := "Input value < 0"

/-- Message of the `ValueError` raised for a dimensionality mismatch:
both dimensionality strings with leading and trailing brackets
stripped, joined by " is not ". -/
def mismatchMsg (actual expected : String) : String :=
  stripBrackets actual ++ " is not " ++ stripBrackets expected

/-- Shallow embedding of `tools.check_pint_quantity(quantity,
dimension_type, ensure_positive)`. The checks run in the order of the
source: membership of `dimension_type` in the `units` dictionary,
access to `quantity.dimensionality` (an `AttributeError` becomes the
"Non-pint quantity" error), `float(quantity.magnitude)` (a `ValueError`
becomes the "Non-numeric pint quantity" error, while a `TypeError` is
not caught and escapes), the optional sign check on the base-unit
magnitude, and finally the comparison of the two dimensionality
strings. On success the function returns `True`. -/
def check_pint_quantity (quantity : PyObject) (dimension_type : String)
    (ensure_positive : Bool) : PyResult :=
  match units_map dimension_type with
  | none => PyResult.valueError (unsupportedMsg dimension_type)
  | some expected =>
    match quantity with
    | PyObject.nonPint => PyResult.valueError nonPintMsg
    | PyObject.pintQuantity q =>
      match q.mag with
      | Magnitude.badStr _ => PyResult.valueError nonNumericMsg
      | Magnitude.badObj => PyResult.typeError
      | Magnitude.num _ =>
        if ensure_positive = true ∧ q.baseMag < 0 then
          PyResult.valueError negativeMsg
        else if q.dims ≠ expected then
          PyResult.valueError (mismatchMsg q.dims expected)
        else
          PyResult.ok true

/-- An argument is magnitude-safe when it is not a pint quantity whose
magnitude makes `float` raise a `TypeError`; on these arguments
`check_pint_quantity` can only return normally or raise a `ValueError`. -/
def magSafe : PyObject → Prop
  | PyObject.pintQuantity q => q.mag ≠ Magnitude.badObj
  | PyObject.nonPint => True

/-- Last two characters of a string, most recent first; used to tell the
different error-message families apart. -/
def lastTwo (s : String) : List Char := s.data.reverse.take 2

/-- A cell of a reference csv file: either a numeric value or a
non-numeric string. -/
inductive Cell where
  | num (x : ℚ)
  | text (s : String)
deriving DecidableEq

/-- Coercion applied by the reference-table loader to every cell of a
numeric column: numeric cells keep their value, non-numeric cells are
coerced to zero. -/
def coerce_cell : Cell → ℚ
  | Cell.num x => x
  | Cell.text _ => 0

/-- Modelled from the spec: `tools.get_flange_limits_from_csv(group)` is
not under src/ (only its test is). Following the spec (section 4.2) and
the messages asserted by test_get_flange_limits_from_csv: a group with
no backing reference file fails with the invalid-group error; every
non-numeric cell of the numeric temperature and pressure columns is
coerced to zero rather than rejected; a negative tabulated pressure is
a load-time integrity error. `valid_groups` lists the material groups
that have a flange-ratings file, and a raw table row is a temperature
cell paired with the pressure cells of the flange-class columns. -/
def get_flange_limits_from_csv (valid_groups : List String) (group : String)
    (table : List (Cell × List Cell)) : Except String (List (ℚ × List ℚ)) :=
  if group ∈ valid_groups then
    if table.any (fun r => r.2.any (fun c => coerce_cell c < 0)) then
      Except.error "Pressure less than zero."
    else
      Except.ok (table.map (fun r => (coerce_cell r.1, r.2.map coerce_cell)))
  else
    Except.error (group ++ " is not a valid group")

/-- Modelled from the spec: the schedule-independent mapping from
nominal pipe size to outer diameter, restricted to the row the spec
records (section 8: nominal size 6 has outer diameter 6.625 in). -/
def pipe_outer_diameters : List (String × ℚ) :=
  [("6", 6.625)]

/-- Modelled from the spec: the mapping from (schedule, nominal size)
to wall thickness, restricted to the rows the spec and the tests
record. -/
def pipe_wall_thicknesses : List (String × String × ℚ) :=
  [("5s", "1/2", 0.065), ("40", "2 1/2", 0.203), ("80", "6", 0.432), ("XXH", "8", 0.875)]

/-- Modelled from the spec: `tools.get_pipe_dimensions(pipe_schedule,
nominal_size)` is not under src/ (only its test is). Following the spec
(section 4.3): look up the wall thickness of the (schedule, size) pair
and the schedule-independent outer diameter of the size, and return
(outer diameter, inner diameter, wall thickness) with the inner
diameter derived as outer diameter minus twice the wall thickness; a
pair absent from the table fails with the size-not-found error message
asserted by test_get_pipe_dimensions. All lengths are in inches. -/
def get_pipe_dimensions (od_table : List (String × ℚ))
    (wt_table : List (String × String × ℚ))
    (pipe_schedule nominal_size : String) : Except String (ℚ × ℚ × ℚ) :=
  match wt_table.find? (fun r => r.1 == pipe_schedule && r.2.1 == nominal_size),
        od_table.find? (fun r => r.1 == nominal_size) with
  | some wt_row, some od_row =>
      Except.ok (od_row.2, od_row.2 - 2 * wt_row.2.2, wt_row.2.2)
  | _, _ => Except.error "Nominal size not found for given pipe schedule"

/-- A pandas dataframe as used by `tools.add_dataframe_row`: column
labels, the row index (pandas labels, here integer labels as produced
by the default RangeIndex or by an explicit integer index) and the data
rows, aligned with the index. -/
structure DataFrame where
  columns : List String
  index : List Nat
  rows : List (List ℚ)
deriving DecidableEq

/-- Pandas label-based assignment `df.loc[lab] = row`: when the label
already occurs in the index, every row carrying that label is
overwritten in place; otherwise the row is appended at the end under
the new label. -/
def loc_set (df : DataFrame) (lab : Nat) (row : List ℚ) : DataFrame :=
  if lab ∈ df.index then
    { df with rows := (df.index.zip df.rows).map (fun p => if p.1 = lab then row else p.2) }
  else
    { df with index := df.index ++ [lab], rows := df.rows ++ [row] }

/-- Shallow embedding of `tools.add_dataframe_row(dataframe, row)`,
whose body is `dataframe.loc[len(dataframe.index)] = row`. The row is
assumed to match the columns (pandas raises otherwise). -/
def add_dataframe_row (dataframe : DataFrame) (row : List ℚ) : DataFrame :=
  loc_set dataframe dataframe.index.length row

/-- The six dimensionality strings the `units` dictionary can produce. -/
lemma units_map_cases (d e : String) (h : units_map d = some e) :
    e = "[length]" ∨ e = "[length] ** 2" ∨ e = "[length] ** 3" ∨ e = "[temperature]"
    ∨ e = "[mass] / [length] / [time] ** 2" ∨ e = "[length] / [time]" := by
  unfold units_map at h
  split_ifs at h <;> simp_all

/-- Taking the last two characters only sees the appended suffix. -/
lemma lastTwo_append_right (x c : String) (h : 2 ≤ c.data.length) :
    lastTwo (x ++ c) = lastTwo c := by
  unfold lastTwo
  rw [String.data_append, List.reverse_append]
  rw [List.take_append_of_le_length (by simpa using h)]

/-- Strings with different trailing characters are different. -/
lemma ne_of_lastTwo_ne {s t : String} (h : lastTwo s ≠ lastTwo t) : s ≠ t :=
  fun he => h (he ▸ rfl)

/-- The unsupported-dimension message always ends in "pe". -/
lemma lastTwo_unsupportedMsg (d : String) : lastTwo (unsupportedMsg d) = [ 'e', 'p'] := by
  unfold unsupportedMsg
  rw [lastTwo_append_right d " not a supported dimension type" (by decide)]
  decide

/-- The trailing characters a dimension-mismatch message can have, one
possibility for each entry of the `units` dictionary. -/
lemma lastTwo_mismatchMsg_mem (d a e : String) (hd : units_map d = some e) :
    lastTwo (mismatchMsg a e) = [ 'h', 't'] ∨ lastTwo (mismatchMsg a e) = [ '2', ' ']
    ∨ lastTwo (mismatchMsg a e) = [ '3', ' '] ∨ lastTwo (mismatchMsg a e) = [ 'e', 'r']
    ∨ lastTwo (mismatchMsg a e) = [ 'e', 'm'] := by
  rcases units_map_cases d e hd with h | h | h | h | h | h <;> subst h <;> unfold mismatchMsg
  · exact Or.inl (by
      rw [lastTwo_append_right (stripBrackets a ++ " is not ") (stripBrackets "[length]")
        (by decide)]
      decide)
  · exact Or.inr (Or.inl (by
      rw [lastTwo_append_right (stripBrackets a ++ " is not ") (stripBrackets "[length] ** 2")
        (by decide)]
      decide))
  · exact Or.inr (Or.inr (Or.inl (by
      rw [lastTwo_append_right (stripBrackets a ++ " is not ") (stripBrackets "[length] ** 3")
        (by decide)]
      decide)))
  · exact Or.inr (Or.inr (Or.inr (Or.inl (by
      rw [lastTwo_append_right (stripBrackets a ++ " is not ") (stripBrackets "[temperature]")
        (by decide)]
      decide))))
  · exact Or.inr (Or.inl (by
      rw [lastTwo_append_right (stripBrackets a ++ " is not ")
        (stripBrackets "[mass] / [length] / [time] ** 2") (by decide)]
      decide))
  · exact Or.inr (Or.inr (Or.inr (Or.inr (by
      rw [lastTwo_append_right (stripBrackets a ++ " is not ")
        (stripBrackets "[length] / [time]") (by decide)]
      decide))))

/-- A dimension-mismatch message differs from any string whose trailing
characters avoid the five possible mismatch endings. -/
lemma mismatchMsg_ne_fixed (d a e m : String) (hd : units_map d = some e)
    (h1 : lastTwo m ≠ [ 'h', 't']) (h2 : lastTwo m ≠ [ '2', ' '])
    (h3 : lastTwo m ≠ [ '3', ' ']) (h4 : lastTwo m ≠ [ 'e', 'r'])
    (h5 : lastTwo m ≠ [ 'e', 'm']) :
    mismatchMsg a e ≠ m := by
  apply ne_of_lastTwo_ne
  rcases lastTwo_mismatchMsg_mem d a e hd with h | h | h | h | h <;> rw [h]
  exacts [fun hh => h1 hh.symm, fun hh => h2 hh.symm, fun hh => h3 hh.symm,
    fun hh => h4 hh.symm, fun hh => h5 hh.symm]

/-- A dimension-mismatch message is never an unsupported-dimension
message. -/
lemma mismatchMsg_ne_unsupported (d d2 a e : String) (hd : units_map d = some e) :
    mismatchMsg a e ≠ unsupportedMsg d2 :=
  mismatchMsg_ne_fixed d a e _ hd
    (by rw [lastTwo_unsupportedMsg]; decide) (by rw [lastTwo_unsupportedMsg]; decide)
    (by rw [lastTwo_unsupportedMsg]; decide) (by rw [lastTwo_unsupportedMsg]; decide)
    (by rw [lastTwo_unsupportedMsg]; decide)

/-- A dimension-mismatch message is never the non-pint message. -/
lemma mismatchMsg_ne_nonPint (d a e : String) (hd : units_map d = some e) :
    mismatchMsg a e ≠ nonPintMsg :=
  mismatchMsg_ne_fixed d a e _ hd (by decide) (by decide) (by decide) (by decide) (by decide)

/-- A dimension-mismatch message is never the non-numeric message. -/
lemma mismatchMsg_ne_nonNumeric (d a e : String) (hd : units_map d = some e) :
    mismatchMsg a e ≠ nonNumericMsg :=
  mismatchMsg_ne_fixed d a e _ hd (by decide) (by decide) (by decide) (by decide) (by decide)

/-- A dimension-mismatch message is never the negative-magnitude
message. -/
lemma mismatchMsg_ne_negative (d a e : String) (hd : units_map d = some e) :
    mismatchMsg a e ≠ negativeMsg :=
  mismatchMsg_ne_fixed d a e _ hd (by decide) (by decide) (by decide) (by decide) (by decide)

/-- An unsupported-dimension message differs from any string not ending
in "pe". -/
lemma unsupportedMsg_ne (d m : String) (hm : lastTwo m ≠ [ 'e', 'p']) :
    unsupportedMsg d ≠ m :=
  ne_of_lastTwo_ne (by rw [lastTwo_unsupportedMsg]; exact fun hh => hm hh.symm)

/-- Reduction of the checker on a quantity with numeric magnitude and a
supported dimension type: only the sign test and the dimensionality
comparison remain. -/
lemma check_eval_num (d e : String) (q : PintQuantity) (x : ℚ) (ep : Bool)
    (hd : units_map d = some e) (hmag : q.mag = Magnitude.num x) :
    check_pint_quantity (PyObject.pintQuantity q) d ep =
      if ep = true ∧ q.baseMag < 0 then PyResult.valueError negativeMsg
      else if q.dims ≠ e then PyResult.valueError (mismatchMsg q.dims e)
      else PyResult.ok true := by
  obtain ⟨dims, mag, base⟩ := q
  simp only at hmag
  subst hmag
  simp only [check_pint_quantity, hd]

/-- Reduction of the checker on a quantity whose magnitude is a
non-numeric string and a supported dimension type. -/
lemma check_eval_badStr (d e s : String) (q : PintQuantity) (ep : Bool)
    (hd : units_map d = some e) (hmag : q.mag = Magnitude.badStr s) :
    check_pint_quantity (PyObject.pintQuantity q) d ep = PyResult.valueError nonNumericMsg := by
  obtain ⟨dims, mag, base⟩ := q
  simp only at hmag
  subst hmag
  simp only [check_pint_quantity, hd]

/-- Reduction of the checker on a quantity whose magnitude makes
`float` raise a `TypeError`, with a supported dimension type. -/
lemma check_eval_badObj (d e : String) (q : PintQuantity) (ep : Bool)
    (hd : units_map d = some e) (hmag : q.mag = Magnitude.badObj) :
    check_pint_quantity (PyObject.pintQuantity q) d ep = PyResult.typeError := by
  obtain ⟨dims, mag, base⟩ := q
  simp only at hmag
  subst hmag
  simp only [check_pint_quantity, hd]

/-- Reduction of the checker on a non-quantity argument with a
supported dimension type. -/
lemma check_eval_nonPint (d e : String) (ep : Bool) (hd : units_map d = some e) :
    check_pint_quantity PyObject.nonPint d ep = PyResult.valueError nonPintMsg := by
  simp only [check_pint_quantity, hd]

/-- Reduction of the checker on an unsupported dimension type. -/
lemma check_eval_unsupported (v : PyObject) (d : String) (ep : Bool)
    (hd : units_map d = none) :
    check_pint_quantity v d ep = PyResult.valueError (unsupportedMsg d) := by
  simp only [check_pint_quantity, hd]

/-- C1: for every recognized dimension type and every pint quantity
whose dimensionality equals the dimensionality of that type and whose
magnitude is numeric with a non-negative base-unit magnitude,
check_pint_quantity with ensure_positive set raises no exception and
returns True. -/
theorem C1_valid_quantity_accepted (d e : String) (q : PintQuantity) (x : ℚ)
    (hd : units_map d = some e) (hdim : q.dims = e) (hmag : q.mag = Magnitude.num x)
    (hpos : 0 ≤ q.baseMag) :
    check_pint_quantity (PyObject.pintQuantity q) d true = PyResult.ok true := by
  rw [check_eval_num d e q x true hd hmag]
  rw [if_neg (fun hc => absurd hc.2 (not_lt.mpr hpos))]
  rw [if_neg (fun hc => hc hdim)]

/-- Witness for C1: 6.3 inches is 0.16002 meters, a length, accepted
with ensure_positive set. -/
theorem C1_valid_quantity_accepted_witness :
    check_pint_quantity
        (PyObject.pintQuantity ⟨"[length]", Magnitude.num (63/10), 16002/100000⟩)
        "length" true = PyResult.ok true :=
  C1_valid_quantity_accepted "length" "[length]" _ (63/10) rfl rfl rfl (by norm_num)

/-- C2 (amended): on every argument except a pint quantity whose
magnitude makes `float` raise a `TypeError` (a non-string
non-coercible object such as a complex number or an array), the checker
never lets a generic error escape, and each of the four failure
conditions (unsupported dimension type, non-quantity input, non-numeric
magnitude, dimension mismatch) raises a `ValueError` with its own
message, the four messages being pairwise distinct; the excepted inputs
escape with an uncaught `TypeError` instead. -/
theorem C2_rejection_named_errors :
    (∀ (v : PyObject) (d : String) (ep : Bool), magSafe v →
        check_pint_quantity v d ep ≠ PyResult.typeError)
    ∧ (∀ (v : PyObject) (d : String) (ep : Bool), units_map d = none →
        check_pint_quantity v d ep = PyResult.valueError (unsupportedMsg d))
    ∧ (∀ (d e : String) (ep : Bool), units_map d = some e →
        check_pint_quantity PyObject.nonPint d ep = PyResult.valueError nonPintMsg)
    ∧ (∀ (d e s : String) (q : PintQuantity) (ep : Bool),
        units_map d = some e → q.mag = Magnitude.badStr s →
        check_pint_quantity (PyObject.pintQuantity q) d ep = PyResult.valueError nonNumericMsg)
    ∧ (∀ (d e : String) (q : PintQuantity) (x : ℚ) (ep : Bool),
        units_map d = some e → q.mag = Magnitude.num x →
        ¬(ep = true ∧ q.baseMag < 0) → q.dims ≠ e →
        check_pint_quantity (PyObject.pintQuantity q) d ep
          = PyResult.valueError (mismatchMsg q.dims e))
    ∧ (∀ (d1 d2 d3 a e : String), units_map d3 = some e →
        (unsupportedMsg d1 ≠ nonPintMsg ∧ unsupportedMsg d1 ≠ nonNumericMsg ∧
          nonPintMsg ≠ nonNumericMsg) ∧
        (mismatchMsg a e ≠ unsupportedMsg d2 ∧ mismatchMsg a e ≠ nonPintMsg ∧
          mismatchMsg a e ≠ nonNumericMsg)) := by
  refine ⟨?_, ?_, ?_, ?_, ?_, ?_⟩
  · intro v d ep hsafe h
    cases hu : units_map d with
    | none =>
      rw [check_eval_unsupported v d ep hu] at h
      exact PyResult.noConfusion h
    | some e =>
      cases v with
      | nonPint =>
        rw [check_eval_nonPint d e ep hu] at h
        exact PyResult.noConfusion h
      | pintQuantity q =>
        cases hm : q.mag with
        | num x =>
          rw [check_eval_num d e q x ep hu hm] at h
          split_ifs at h
        | badStr s =>
          rw [check_eval_badStr d e s q ep hu hm] at h
          exact PyResult.noConfusion h
        | badObj => exact hsafe hm
  · exact fun v d ep hd => check_eval_unsupported v d ep hd
  · exact fun d e ep hd => check_eval_nonPint d e ep hd
  · exact fun d e s q ep hd hm => check_eval_badStr d e s q ep hd hm
  · intro d e q x ep hd hm hneg hdim
    rw [check_eval_num d e q x ep hd hm, if_neg hneg, if_pos hdim]
  · intro d1 d2 d3 a e hd
    exact ⟨⟨unsupportedMsg_ne d1 nonPintMsg (by decide),
        unsupportedMsg_ne d1 nonNumericMsg (by decide), by decide⟩,
      mismatchMsg_ne_unsupported d3 d2 a e hd, mismatchMsg_ne_nonPint d3 a e hd,
      mismatchMsg_ne_nonNumeric d3 a e hd⟩

/-- Witness for C2: a quantity with the non-parseable string magnitude
"f" produces the named non-numeric ValueError. -/
theorem C2_rejection_named_errors_witness :
    check_pint_quantity
        (PyObject.pintQuantity ⟨"[length] ** 2", Magnitude.badStr "f", 0⟩)
        "area" true = PyResult.valueError nonNumericMsg :=
  C2_rejection_named_errors.2.2.2.1 "area" "[length] ** 2" "f"
    ⟨"[length] ** 2", Magnitude.badStr "f", 0⟩ true rfl rfl

/-- Counterexample to C2 as stated: a length quantity whose magnitude is
a non-string object that `float` cannot coerce (for example a complex
number) is a failing input, yet it escapes with an uncaught `TypeError`
rather than any named `ValueError`. -/
theorem C2_rejection_named_errors_counterexample :
    check_pint_quantity (PyObject.pintQuantity ⟨"[length]", Magnitude.badObj, 2⟩)
        "length" false = PyResult.typeError
    ∧ ∀ m, check_pint_quantity (PyObject.pintQuantity ⟨"[length]", Magnitude.badObj, 2⟩)
        "length" false ≠ PyResult.valueError m := by
  refine ⟨rfl, fun m h => ?_⟩
  rw [show check_pint_quantity (PyObject.pintQuantity ⟨"[length]", Magnitude.badObj, 2⟩)
      "length" false = PyResult.typeError from rfl] at h
  exact PyResult.noConfusion h

/-- C3: on a pint quantity with numeric magnitude and a recognized
dimension type, the checker raises the negative-magnitude ValueError
exactly when ensure_positive is set and the base-unit magnitude is
negative; in particular a negative quantity of the right dimension is
accepted when ensure_positive is not set. -/
theorem C3_negative_magnitude_iff :
    (∀ (d e : String) (q : PintQuantity) (x : ℚ) (ep : Bool),
        units_map d = some e → q.mag = Magnitude.num x →
        (check_pint_quantity (PyObject.pintQuantity q) d ep = PyResult.valueError negativeMsg
          ↔ ep = true ∧ q.baseMag < 0))
    ∧ (∀ (d e : String) (q : PintQuantity) (x : ℚ),
        units_map d = some e → q.mag = Magnitude.num x → q.dims = e → q.baseMag < 0 →
        check_pint_quantity (PyObject.pintQuantity q) d false = PyResult.ok true) := by
  constructor
  · intro d e q x ep hd hm
    rw [check_eval_num d e q x ep hd hm]
    constructor
    · intro h
      split_ifs at h with h1 h2
      · exact h1
      · exact absurd (PyResult.valueError.inj h) (mismatchMsg_ne_negative d q.dims e hd)
    · intro hc
      rw [if_pos hc]
  · intro d e q x hd hm hdim hneg
    rw [check_eval_num d e q x false hd hm]
    rw [if_neg (fun hc => Bool.false_ne_true hc.1)]
    rw [if_neg (fun hc => hc hdim)]

/-- Witness for C3: minus 4 inches (base magnitude minus 0.1016 meters)
is accepted as a length when ensure_positive is not set. -/
theorem C3_negative_magnitude_iff_witness :
    check_pint_quantity
        (PyObject.pintQuantity ⟨"[length]", Magnitude.num (-4), -(1016/10000)⟩)
        "length" false = PyResult.ok true :=
  C3_negative_magnitude_iff.2 "length" "[length]" _ (-4) rfl rfl rfl (by norm_num)

/-- C4: a numeric pint quantity whose dimensionality differs from the
requested one (all other checks passing) raises the dimension-mismatch
ValueError, and the message contains both the actual and the expected
dimensionality strings (with their leading and trailing brackets
stripped, as the code strips them). -/
theorem C4_dimension_mismatch_reported (d e : String) (q : PintQuantity) (x : ℚ) (ep : Bool)
    (hd : units_map d = some e) (hmag : q.mag = Magnitude.num x)
    (hneg : ¬(ep = true ∧ q.baseMag < 0)) (hdim : q.dims ≠ e) :
    check_pint_quantity (PyObject.pintQuantity q) d ep
      = PyResult.valueError (mismatchMsg q.dims e)
    ∧ (∃ u v, (mismatchMsg q.dims e).data = u ++ (stripBrackets q.dims).data ++ v)
    ∧ (∃ u v, (mismatchMsg q.dims e).data = u ++ (stripBrackets e).data ++ v) := by
  refine ⟨?_, ⟨[], (" is not " ++ stripBrackets e).data, ?_⟩,
    ⟨(stripBrackets q.dims ++ " is not ").data, [], ?_⟩⟩
  · rw [check_eval_num d e q x ep hd hmag, if_neg hneg, if_pos hdim]
  · simp [mismatchMsg, String.data_append, List.append_assoc]
  · simp [mismatchMsg, String.data_append, List.append_assoc]

/-- Witness for C4: 19.2 degC supplied where a length is required gives
the message "temperature is not length", which reports both dimension
strings. -/
theorem C4_dimension_mismatch_reported_witness :
    check_pint_quantity
        (PyObject.pintQuantity ⟨"[temperature]", Magnitude.num (96/5), 29235/100⟩)
        "length" false
      = PyResult.valueError (mismatchMsg "[temperature]" "[length]")
    ∧ (∃ u v, (mismatchMsg "[temperature]" "[length]").data
        = u ++ (stripBrackets "[temperature]").data ++ v)
    ∧ (∃ u v, (mismatchMsg "[temperature]" "[length]").data
        = u ++ (stripBrackets "[length]").data ++ v) :=
  C4_dimension_mismatch_reported "length" "[length]"
    ⟨"[temperature]", Magnitude.num (96/5), 29235/100⟩ (96/5) false rfl rfl
    (by simp) (by decide)

/-- C5: whenever the requested dimension type is not one of the six
recognized names, the checker raises the unsupported-dimension
ValueError, whatever the quantity argument is. -/
theorem C5_unsupported_dimension (v : PyObject) (d : String) (ep : Bool)
    (hd : units_map d = none) :
    check_pint_quantity v d ep = PyResult.valueError (unsupportedMsg d) :=
  check_eval_unsupported v d ep hd

/-- Witness for C5: the dimension type "walrus" is rejected with its
named message even though the quantity itself is a fine temperature. -/
theorem C5_unsupported_dimension_witness :
    check_pint_quantity
        (PyObject.pintQuantity ⟨"[temperature]", Magnitude.num 3, 27615/100⟩)
        "walrus" false = PyResult.valueError (unsupportedMsg "walrus") :=
  C5_unsupported_dimension _ "walrus" false rfl

/-- C6: an input that is not a dimensioned quantity (no dimensionality
attribute, such as a bare number) is rejected with the non-pint
ValueError for every recognized dimension type. -/
theorem C6_non_quantity_rejected (d e : String) (ep : Bool)
    (hd : units_map d = some e) :
    check_pint_quantity PyObject.nonPint d ep = PyResult.valueError nonPintMsg :=
  check_eval_nonPint d e ep hd

/-- Witness for C6: the bare number 7 passed where a length is required
raises the named non-pint error. -/
theorem C6_non_quantity_rejected_witness :
    check_pint_quantity PyObject.nonPint "length" false = PyResult.valueError nonPintMsg :=
  C6_non_quantity_rejected "length" "[length]" false rfl

/-- C7 (amended): a pint quantity whose magnitude is a string that
cannot be parsed as a float raises the named non-numeric ValueError for
every recognized dimension type; a non-string magnitude that `float`
rejects (for example a complex number or a multi-element array) instead
escapes with an uncaught `TypeError`, because the code only catches
`ValueError` around the float coercion. -/
theorem C7_non_numeric_magnitude :
    (∀ (d e s : String) (q : PintQuantity) (ep : Bool),
        units_map d = some e → q.mag = Magnitude.badStr s →
        check_pint_quantity (PyObject.pintQuantity q) d ep = PyResult.valueError nonNumericMsg)
    ∧ (∀ (d e : String) (q : PintQuantity) (ep : Bool),
        units_map d = some e → q.mag = Magnitude.badObj →
        check_pint_quantity (PyObject.pintQuantity q) d ep = PyResult.typeError) :=
  ⟨fun d e s q ep hd hm => check_eval_badStr d e s q ep hd hm,
    fun d e q ep hd hm => check_eval_badObj d e q ep hd hm⟩

/-- Witness for C7: the string magnitude "asdf" on a volume quantity
raises the named non-numeric ValueError. -/
theorem C7_non_numeric_magnitude_witness :
    check_pint_quantity
        (PyObject.pintQuantity ⟨"[length] ** 3", Magnitude.badStr "asdf", 0⟩)
        "volume" false = PyResult.valueError nonNumericMsg :=
  C7_non_numeric_magnitude.1 "volume" "[length] ** 3" "asdf" _ false rfl rfl

/-- Counterexample to C7 as stated: a pressure quantity with a
non-string magnitude that `float` cannot coerce is not turned into the
named non-numeric ValueError; the `TypeError` escapes uncaught. -/
theorem C7_non_numeric_magnitude_counterexample :
    check_pint_quantity
        (PyObject.pintQuantity ⟨"[mass] / [length] / [time] ** 2", Magnitude.badObj, 1⟩)
        "pressure" true = PyResult.typeError
    ∧ check_pint_quantity
        (PyObject.pintQuantity ⟨"[mass] / [length] / [time] ** 2", Magnitude.badObj, 1⟩)
        "pressure" true ≠ PyResult.valueError nonNumericMsg :=
  ⟨by decide, by decide⟩

/-- C8: the spec-modelled flange-limit loader, given a valid material
group and a table whose numeric pressure cells are all non-negative,
succeeds and returns the table with every non-numeric cell of the
numeric columns coerced to zero, numeric cells and the row structure
untouched; and a table holding a negative pressure value is surfaced as
the load-time integrity error rather than swallowed, so the coercion is
the only silent alteration of bad data. -/
theorem C8_nonnumeric_cells_zeroed (vg : List String) (group : String)
    (table : List (Cell × List Cell))
    (hg : group ∈ vg)
    (hneg : ∀ r ∈ table, ∀ c ∈ r.2, 0 ≤ coerce_cell c) :
    get_flange_limits_from_csv vg group table
      = Except.ok (table.map (fun r => (coerce_cell r.1, r.2.map coerce_cell)))
    ∧ (∀ s, coerce_cell (Cell.text s) = 0)
    ∧ (∀ x, coerce_cell (Cell.num x) = x)
    ∧ (table.map (fun r => (coerce_cell r.1, r.2.map coerce_cell))).length = table.length
    ∧ (∀ table2 : List (Cell × List Cell),
        (∃ r ∈ table2, ∃ c ∈ r.2, coerce_cell c < 0) →
        get_flange_limits_from_csv vg group table2
          = Except.error "Pressure less than zero.") := by
  refine ⟨?_, fun s => rfl, fun x => rfl, List.length_map _ _, ?_⟩
  · unfold get_flange_limits_from_csv
    rw [if_pos hg, if_neg ?_]
    intro hc
    rw [List.any_eq_true] at hc
    obtain ⟨r, hr, hc2⟩ := hc
    rw [List.any_eq_true] at hc2
    obtain ⟨c, hcmem, hlt⟩ := hc2
    exact absurd (of_decide_eq_true hlt) (not_lt.mpr (hneg r hr c hcmem))
  · intro table2 hbad
    obtain ⟨r, hr, c, hcmem, hlt⟩ := hbad
    unfold get_flange_limits_from_csv
    rw [if_pos hg, if_pos ?_]
    rw [List.any_eq_true]
    exact ⟨r, hr, List.any_eq_true.mpr ⟨c, hcmem, decide_eq_true hlt⟩⟩

/-- Witness for C8: the table the test writes (temperatures 9, "s", "d"
against pressures "a", 3, "f") loads without error, with every
non-numeric cell zeroed and the numeric cells kept. -/
theorem C8_nonnumeric_cells_zeroed_witness :
    get_flange_limits_from_csv ["testfile"] "testfile"
        [(Cell.num 9, [Cell.text "a"]), (Cell.text "s", [Cell.num 3]),
          (Cell.text "d", [Cell.text "f"])]
      = Except.ok [(9, [0]), (0, [3]), (0, [0])] :=
  (C8_nonnumeric_cells_zeroed ["testfile"] "testfile"
    [(Cell.num 9, [Cell.text "a"]), (Cell.text "s", [Cell.num 3]),
      (Cell.text "d", [Cell.text "f"])] (by decide) (by decide)).1

/-- C9: the spec-modelled pipe lookup returns the tabulated outer
diameter and wall thickness of the (schedule, size) pair with the inner
diameter derived as outer minus twice the thickness, fails with the
size-not-found error when either lookup misses, and on schedule 80
nominal size 6 returns 6.625 in, 5.761 in and 0.432 in, each within
1e-7. -/
theorem C9_pipe_dimensions_tabulated (odt : List (String × ℚ))
    (wtt : List (String × String × ℚ)) (s z : String) :
    (∀ wrow orow, wtt.find? (fun r => r.1 == s && r.2.1 == z) = some wrow →
        odt.find? (fun r => r.1 == z) = some orow →
        get_pipe_dimensions odt wtt s z
          = Except.ok (orow.2, orow.2 - 2 * wrow.2.2, wrow.2.2))
    ∧ (wtt.find? (fun r => r.1 == s && r.2.1 == z) = none →
        get_pipe_dimensions odt wtt s z
          = Except.error "Nominal size not found for given pipe schedule")
    ∧ (odt.find? (fun r => r.1 == z) = none →
        get_pipe_dimensions odt wtt s z
          = Except.error "Nominal size not found for given pipe schedule")
    ∧ (∃ odv idv wtv,
        get_pipe_dimensions pipe_outer_diameters pipe_wall_thicknesses "80" "6"
          = Except.ok (odv, idv, wtv)
        ∧ |odv - 6.625| < 1/10000000 ∧ |idv - 5.761| < 1/10000000
        ∧ |wtv - 0.432| < 1/10000000) := by
  refine ⟨?_, ?_, ?_, ?_⟩
  · intro wrow orow hw ho
    unfold get_pipe_dimensions
    rw [hw, ho]
  · intro hw
    unfold get_pipe_dimensions
    rw [hw]
  · intro ho
    unfold get_pipe_dimensions
    rw [ho]
    cases hw : wtt.find? (fun r => r.1 == s && r.2.1 == z) <;> rfl
  · refine ⟨6.625, 6.625 - 2 * 0.432, 0.432, rfl, by norm_num, by norm_num, by norm_num⟩

/-- Witness for C9: the lookup at schedule 80, nominal size 6 of the
recorded table rows. -/
theorem C9_pipe_dimensions_tabulated_witness :
    get_pipe_dimensions pipe_outer_diameters pipe_wall_thicknesses "80" "6"
      = Except.ok (6.625, 6.625 - 2 * 0.432, 0.432) :=
  (C9_pipe_dimensions_tabulated pipe_outer_diameters pipe_wall_thicknesses "80" "6").1
    ("80", "6", 0.432) ("6", 6.625) rfl rfl

/-- Counterexample to C10 as stated: on a dataframe whose integer index
is [1], the label written is len(index) = 1, which already exists, so
pandas overwrites that row in place and the dataframe does not gain a
row. -/
theorem C10_add_row_counterexample :
    (add_dataframe_row (DataFrame.mk ["a"] [1] [[0]]) [5]).rows.length
      ≠ (DataFrame.mk ["a"] [1] [[0]]).rows.length + 1 := by decide

/-- C10 (amended): add_dataframe_row writes the row at index label
len(dataframe.index); provided that label does not already occur in the
index (as with the default RangeIndex), the dataframe gains exactly one
row, the new last row is the supplied row, and the previous rows, index
labels and column labels are unchanged. -/
theorem C10_add_row_appends (df : DataFrame) (row : List ℚ)
    (h : df.index.length ∉ df.index) :
    (add_dataframe_row df row).rows = df.rows ++ [row]
    ∧ (add_dataframe_row df row).index = df.index ++ [df.index.length]
    ∧ (add_dataframe_row df row).columns = df.columns
    ∧ (add_dataframe_row df row).rows.length = df.rows.length + 1 := by
  unfold add_dataframe_row loc_set
  rw [if_neg h]
  exact ⟨rfl, rfl, rfl, by simp⟩

/-- Witness for C10: appending to a one-row dataframe with the default
integer index. -/
theorem C10_add_row_appends_witness :
    (add_dataframe_row (DataFrame.mk ["a"] [0] [[1]]) [2]).rows = [[1]] ++ [[2]]
    ∧ (add_dataframe_row (DataFrame.mk ["a"] [0] [[1]]) [2]).index = [0] ++ [1]
    ∧ (add_dataframe_row (DataFrame.mk ["a"] [0] [[1]]) [2]).columns = ["a"]
    ∧ (add_dataframe_row (DataFrame.mk ["a"] [0] [[1]]) [2]).rows.length = 1 + 1 :=
  C10_add_row_appends (DataFrame.mk ["a"] [0] [[1]]) [2] (by decide)

end BeaverDet
